import Mathlib

set_option linter.unusedVariables false

/-!
Verification development for the hti5250j automation library.

The repository contains a Robot Framework keyword library
(`src/examples/HTI5250J.py`) that drives an IBM i 5250 terminal session
through a Java `Session5250` / headless-session object, and a generator
script (`src/generate_ccsid_migrations.py`) that emits code-page adapter
source and test files.  The Python code is embedded directly; the Java
collaborators it calls (session connect/disconnect, keyboard-lock waits,
key parsing, code-page conversion) are not part of the repository source,
so where a property is decided by that missing code it is modelled from
the specification, with a doc comment saying so.
-/

namespace HTI5250J

/-- Typed error taxonomy from the specification (section 7).  The Python
code raises generic exceptions with distinguishing messages; each message
family is mapped to its taxonomy constructor. -/
inductive PyErr where
  | connectionError : String → PyErr
  | timeoutError : String → PyErr
  | parseError : String → PyErr
  | stateError : String → PyErr
  | configurationError : String → PyErr
  | genericError : String → PyErr
deriving DecidableEq, Repr

/-! ## Code-page conversion engine (claims about `toUnicode` / `toHostByte`)

Modelled from the spec: the converter classes (`CCSIDFactory`,
`CodepageConverterAdapter`, `ebcdic2uni`, `uni2ebcdic`) live in the Java
sources, which are not under `src/`; only the generator templates
reference them.  The model follows spec sections 4.1 and 6: a registry
builds an immutable table from a declarative descriptor holding a
256-entry forward byte table; malformed records fail with a
ConfigurationError at load time; the reverse mapping sends a character to
a byte that decodes back to the same character. -/

/-- Modelled from the spec: a declarative code-page descriptor record
with fields id, name, description and a forward byte table (spec
section 6). -/
structure CodepageDescriptor where
  id : String
  name : String
  descr : String
  table : List Char
deriving DecidableEq, Repr

/-- Modelled from the spec: a built, immutable code-page table (spec
section 3, CodepageTable). -/
structure CodepageTable where
  name : String
  descr : String
  forward : List Char
deriving DecidableEq, Repr

/-- Modelled from the spec: building a table validates the descriptor —
exactly 256 forward entries and a non-empty description — and otherwise
fails with a ConfigurationError at load time (spec section 6). -/
def buildTable (d : CodepageDescriptor) : Except PyErr CodepageTable :=
  if d.table.length = 256 ∧ d.descr ≠ "" then
    .ok { name := d.name, descr := d.descr, forward := d.table }
  else
    .error (.configurationError d.id)

/-- Modelled from the spec: forward conversion of one host byte to a
Unicode character by table lookup (`toUnicode`, spec section 4.1). -/
def toUnicode (t : CodepageTable) (b : Nat) : Option Char :=
  t.forward[b]?

/-- Reverse scan of a forward table for the first byte mapped to a given
character. -/
def revLookup (l : List Char) (c : Char) : Option Nat :=
  match l with
  | [] => none
  | a :: rest =>
    if a = c then some 0
    else (revLookup rest c).map (fun i => i + 1)

/-- Modelled from the spec: reverse conversion (`toHostByte`, spec
section 4.1) — the first byte whose forward entry is the character, or
the substitution byte 0x3F when the character is not in the table. -/
def toHostByte (t : CodepageTable) (c : Char) : Nat :=
  match revLookup t.forward c with
  | some i => i
  | none => 0x3F

lemma revLookup_get {l : List Char} {c : Char} {i : Nat}
    (h : revLookup l c = some i) : l[i]? = some c := by
  induction l generalizing i with
  | nil => simp [revLookup] at h
  | cons a rest ih =>
    by_cases hac : a = c
    · simp [revLookup, hac] at h
      subst h
      simp [hac]
    · simp [revLookup, hac] at h
      obtain ⟨j, hj, hji⟩ := h
      subst hji
      simpa using ih hj

lemma revLookup_isSome_of_mem {l : List Char} {c : Char}
    (h : c ∈ l) : (revLookup l c).isSome := by
  induction l with
  | nil => simp at h
  | cons a rest ih =>
    by_cases hac : a = c
    · simp [revLookup, hac]
    · rcases List.mem_cons.mp h with h1 | h2
      · exact absurd h1.symm hac
      · simp only [revLookup, hac, if_false]
        rcases Option.isSome_iff_exists.mp (ih h2) with ⟨j, hj⟩
        simp [hj]

lemma getElem?_mem {l : List Char} {n : Nat} {c : Char}
    (h : l[n]? = some c) : c ∈ l := by
  induction l generalizing n with
  | nil => simp at h
  | cons a rest ih =>
    cases n with
    | zero =>
      simp at h
      simp [h]
    | succ m =>
      simp at h
      exact List.mem_cons_of_mem a (ih h)

lemma getElem?_isSome_of_lt {l : List Char} {n : Nat}
    (h : n < l.length) : l[n]?.isSome := by
  induction l generalizing n with
  | nil => simp at h
  | cons a rest ih =>
    cases n with
    | zero => simp
    | succ m =>
      simp only [List.getElem?_cons_succ]
      exact ih (Nat.lt_of_succ_lt_succ (by simpa using h))

/-- C1: for every code page built by the registry, the forward conversion
`toUnicode` is total over all 256 byte values: every byte below 256 has a
defined character (the validated forward table has exactly 256 entries). -/
theorem toUnicode_total (d : CodepageDescriptor) (t : CodepageTable)
    (hb : buildTable d = .ok t) (b : Nat) (hlt : b < 256) :
    (toUnicode t b).isSome := by
  unfold buildTable at hb
  split at hb
  · rename_i hc
    cases hb
    exact getElem?_isSome_of_lt (by rw [hc.1]; exact hlt)
  · simp at hb

/-- Identity-style 256-entry descriptor used as a concrete witness
input. -/
def idDescriptor : CodepageDescriptor :=
  { id := "id256", name := "id256", descr := "identity table",
    table := (List.range 256).map Char.ofNat }

/-- The table built from `idDescriptor`. -/
def idTable : CodepageTable :=
  { name := "id256", descr := "identity table",
    forward := (List.range 256).map Char.ofNat }

lemma buildTable_idDescriptor : buildTable idDescriptor = .ok idTable := by
  unfold buildTable idDescriptor idTable
  rw [if_pos]
  constructor
  · simp
  · decide

/-- Witness for C1 at a concrete built table and byte. -/
theorem toUnicode_total_witness :
    buildTable idDescriptor = .ok idTable ∧ (toUnicode idTable 255).isSome :=
  ⟨buildTable_idDescriptor,
   toUnicode_total idDescriptor idTable buildTable_idDescriptor 255 (by decide)⟩

/-- C2: character-identity round trip.  For any table and any byte `b`
defined in it, re-encoding the decoded character with `toHostByte` yields
a byte that decodes to that same character, so decode-encode-decode
equals decode. -/
theorem roundTrip_char_identity (t : CodepageTable) (b : Nat) (c : Char)
    (h : toUnicode t b = some c) :
    toUnicode t (toHostByte t c) = some c := by
  have hmem : c ∈ t.forward := getElem?_mem h
  have hsome := revLookup_isSome_of_mem hmem
  rcases Option.isSome_iff_exists.mp hsome with ⟨i, hi⟩
  unfold toHostByte
  rw [hi]
  exact revLookup_get hi

/-- Small concrete table for the C2 witness. -/
def abcTable : CodepageTable :=
  { name := "abc", descr := "abc", forward := ['a', 'b', 'c', 'b'] }

/-- Witness for C2 at a concrete table and byte (byte 3 decodes to b,
which re-encodes to byte 1, which decodes to b again). -/
theorem roundTrip_char_identity_witness :
    toUnicode abcTable (toHostByte abcTable 'b') = some 'b' :=
  roundTrip_char_identity abcTable 3 'b' (by decide)

/-! ## Keyboard-lock cycle wait (claim C3)

Modelled from the spec: the keyboard-lock state machine behind
`waitForKeyboardLockCycle` is implemented by the Java headless session,
which is not under `src/`; `wait_for_keyboard_lock_cycle` in
`HTI5250J.py` only delegates to it.  The model follows spec sections 4.2
and 5: the receive loop delivers a stream of host control signals, each
stamped with its arrival time; a cycle wait first awaits a `Locked`
signal (submission acknowledged), then a later `Unlocked` signal (screen
refreshed), all against one absolute deadline; if either phase misses its
signal by the deadline the wait fails with a TimeoutError. -/

/-- A host keyboard control signal (spec section 4.2). -/
inductive Signal where
  | locked : Signal
  | unlocked : Signal
deriving DecidableEq, Repr

/-- A receive-loop event: a control signal stamped with its arrival
time. -/
structure Ev where
  time : Nat
  sig : Signal
deriving DecidableEq, Repr

/-- First event in a stream carrying the wanted signal, with its index. -/
def findSignal (evs : List Ev) (s : Signal) : Option (Nat × Ev) :=
  match evs with
  | [] => none
  | e :: rest =>
    if e.sig = s then some (0, e)
    else (findSignal rest s).map (fun p => (p.1 + 1, p.2))

/-- Modelled from the spec: `waitForLockCycle` blocks for two sequential
transitions in order — first `Locked`, then `Unlocked` — within one
deadline; a phase whose signal is absent or arrives past the deadline
fails with a TimeoutError (spec section 4.2).  On success it reports the
indices of the two observed transition events. -/
def waitForLockCycle (deadline : Nat) (evs : List Ev) :
    Except PyErr (Nat × Nat) :=
  match findSignal evs .locked with
  | none => .error (.timeoutError "lock phase deadline elapsed")
  | some (i, e1) =>
    if deadline < e1.time then
      .error (.timeoutError "lock phase deadline elapsed")
    else
      match findSignal (evs.drop (i + 1)) .unlocked with
      | none => .error (.timeoutError "unlock phase deadline elapsed")
      | some (j, e2) =>
        if deadline < e2.time then
          .error (.timeoutError "unlock phase deadline elapsed")
        else
          .ok (i, i + 1 + j)

lemma findSignal_get {evs : List Ev} {s : Signal} {i : Nat} {e : Ev}
    (h : findSignal evs s = some (i, e)) : evs[i]? = some e ∧ e.sig = s := by
  induction evs generalizing i with
  | nil => simp [findSignal] at h
  | cons a rest ih =>
    unfold findSignal at h
    by_cases has : a.sig = s
    · rw [if_pos has] at h
      injection h with hp
      injection hp with h1 h2
      subst h1
      subst h2
      exact ⟨by simp, has⟩
    · rw [if_neg has] at h
      rcases hr : findSignal rest s with _ | ⟨i2, e2⟩
      · rw [hr] at h
        simp at h
      · rw [hr] at h
        replace h : some (i2 + 1, e2) = some (i, e) := h
        injection h with hp
        injection hp with h1 h2
        subst h1
        subst h2
        obtain ⟨hget, hsig⟩ := ih hr
        exact ⟨by simpa using hget, hsig⟩

/-- C3: a lock-cycle wait observes, within one call and one deadline,
exactly two transitions in strict order — an event at a strictly smaller
index carrying `Locked`, then a distinct later event carrying
`Unlocked`, both within the deadline — never the reverse order and never
one coalesced event; and every failure of the wait is a TimeoutError. -/
theorem waitForLockCycle_ordered (deadline : Nat) (evs : List Ev) :
    (∀ i j, waitForLockCycle deadline evs = .ok (i, j) →
      i < j ∧
      (∃ e1, evs[i]? = some e1 ∧ e1.sig = .locked ∧ e1.time ≤ deadline) ∧
      (∃ e2, evs[j]? = some e2 ∧ e2.sig = .unlocked ∧ e2.time ≤ deadline)) ∧
    (∀ er, waitForLockCycle deadline evs = .error er →
      ∃ m, er = .timeoutError m) := by
  constructor
  · intro i j h
    unfold waitForLockCycle at h
    split at h
    · simp at h
    · rename_i i0 e1 hf1
      split at h
      · simp at h
      · rename_i ht1
        split at h
        · simp at h
        · rename_i j0 e2 hf2
          split at h
          · simp at h
          · rename_i ht2
            injection h with hp
            injection hp with h1 h2
            subst h1
            subst h2
            obtain ⟨hg1, hs1⟩ := findSignal_get hf1
            obtain ⟨hg2, hs2⟩ := findSignal_get hf2
            rw [List.getElem?_drop] at hg2
            exact ⟨by omega, ⟨e1, hg1, hs1, by omega⟩, ⟨e2, hg2, hs2, by omega⟩⟩
  · intro er h
    unfold waitForLockCycle at h
    split at h
    · injection h with hp
      exact ⟨_, hp.symm⟩
    · split at h
      · injection h with hp
        exact ⟨_, hp.symm⟩
      · split at h
        · injection h with hp
          exact ⟨_, hp.symm⟩
        · split at h
          · injection h with hp
            exact ⟨_, hp.symm⟩
          · simp at h

/-- Concrete receive-loop trace for the C3 witness: a stray `Unlocked`
arrives first, then the `Locked`/`Unlocked` cycle. -/
def cycleTrace : List Ev :=
  [⟨1, .unlocked⟩, ⟨2, .locked⟩, ⟨3, .unlocked⟩]

/-- Witness for C3 on a concrete trace: the wait returns the event pair
(1, 2) and the theorem yields the strict ordering at that input. -/
theorem waitForLockCycle_ordered_witness :
    waitForLockCycle 10 cycleTrace = .ok (1, 2) ∧ 1 < 2 := by
  have h := (waitForLockCycle_ordered 10 cycleTrace).1 1 2 (by rfl)
  exact ⟨by rfl, h.1⟩

/-! ## Robot Framework library (`src/examples/HTI5250J.py`)

The library class holds three attributes set in `__init__`: `session`,
`headless_session` (both initially None) and `_timeout_ms` (initially
30000).  The Java collaborators it calls (`Session5250`, the headless
session, `Class.forName`) are external; their observable behaviour at
each call site is modelled by a `JavaEnv` record: whether each delegated
call raises, whether `isConnected()` reports true, and what
`Class.forName(...).newInstance()` resolves a name to.  The active
request handler installed on the Java session is tracked as part of the
state; a handler maps screen content to an optional response string. -/

/-- Observable behaviour of the external Java session objects at the
call sites used by the library. -/
structure JavaEnv where
  isConnected : Bool
  connectRaises : Bool
  disconnectRaises : Bool
  unlockRaises : Bool
  cycleRaises : Bool
  getScreenRaises : Bool
  screenText : String
  classRegistry : String → Option (String → Option String)

/-- The mutable attributes of one `HTI5250J` library instance, plus the
request handler installed on its Java session. -/
structure LibState where
  session : Option Unit
  headless : Option Unit
  handler : String → Option String
  timeout_ms : Nat

/-- Model of `__init__`: no session, no headless session, default timeout
30000 ms; the default request handler declines every request. -/
def initState : LibState :=
  { session := none, headless := none, handler := fun _ => none,
    timeout_ms := 30000 }

/-- Result of a library call that can mutate `self`: the state after the
call plus the returned value or raised error. -/
structure Outcome (α : Type) where
  state : LibState
  result : Except PyErr α

/-- Model of `connect_to_ibm_i`: assigns `self.session` and
`self.headless_session`, then calls `session.connect()` and checks
`isConnected()`; any failure is re-raised as a connection error.  The
assignments happen before the fallible calls, so they survive a
failure. -/
def connect_to_ibm_i (env : JavaEnv) (s : LibState) (host : String) :
    Outcome Unit :=
  let s1 := { s with session := some (), headless := some () }
  if env.connectRaises then
    { state := s1, result := .error (.connectionError "Connection failed") }
  else if env.isConnected = false then
    { state := s1,
      result := .error (.connectionError
        ("Connection failed: Failed to connect to IBM i system: " ++ host)) }
  else
    { state := s1, result := .ok () }

/-- The `try` body of `disconnect_from_ibm_i`: if a session is present,
call its `disconnect()` (which may raise, skipping the clearing
assignments that follow it), else do nothing. -/
def disconnect_body (env : JavaEnv) (s : LibState) :
    LibState × Except PyErr Unit :=
  match s.session with
  | none => (s, .ok ())
  | some _ =>
    if env.disconnectRaises then (s, .error (.genericError "Disconnect error"))
    else ({ s with session := none, headless := none }, .ok ())

/-- Model of `disconnect_from_ibm_i`: runs the body under `try`; the `except`
branch only prints a warning, so the call never raises. -/
def disconnect_from_ibm_i (env : JavaEnv) (s : LibState) : Outcome Unit :=
  match disconnect_body env s with
  | (s2, .ok _) => { state := s2, result := .ok () }
  | (s2, .error _) => { state := s2, result := .ok () }

/-- Model of `_verify_connected`: raises if either reference is missing, or if
the headless session reports not connected. -/
def verify_connected (env : JavaEnv) (s : LibState) : Option PyErr :=
  if s.session = none ∨ s.headless = none then
    some (.stateError "Not connected to IBM i - use Connect To IBM i first")
  else if env.isConnected = false then
    some (.stateError "Session is not connected to IBM i system")
  else
    none

/-- Timeout actually used by `wait_for_keyboard_unlock`:
`int(timeout_ms) if timeout_ms else self._timeout_ms` (a passed 0 is
falsy and also falls back to the stored default). -/
def actual_unlock_timeout (s : LibState) (arg : Option Nat) : Nat :=
  match arg with
  | some t => if t ≠ 0 then t else s.timeout_ms
  | none => s.timeout_ms

/-- Timeout actually used by `wait_for_keyboard_lock_cycle`:
`int(timeout_ms) if timeout_ms else 5000` — the fallback is the literal
5000, not the stored default, and depends on no library state. -/
def actual_cycle_timeout (arg : Option Nat) : Nat :=
  match arg with
  | some t => if t ≠ 0 then t else 5000
  | none => 5000

/-- Model of `wait_for_keyboard_unlock`: verify connected (raising a state error
otherwise), then delegate; a delegate failure is re-raised as a timeout
error. -/
def wait_for_keyboard_unlock (env : JavaEnv) (s : LibState)
    (arg : Option Nat) : Except PyErr Unit :=
  match verify_connected env s with
  | some e => .error e
  | none =>
    if env.unlockRaises then
      .error (.timeoutError "Timeout waiting for keyboard unlock")
    else .ok ()

/-- Model of `wait_for_keyboard_lock_cycle`: verify connected (raising a state
error otherwise), then delegate; a delegate failure is re-raised as a
timeout error. -/
def wait_for_keyboard_lock_cycle (env : JavaEnv) (s : LibState)
    (arg : Option Nat) : Except PyErr Unit :=
  match verify_connected env s with
  | some e => .error e
  | none =>
    if env.cycleRaises then
      .error (.timeoutError "Timeout waiting for keyboard lock cycle")
    else .ok ()

/-- Model of `get_screen_as_text`: verify connected (raising a state error
otherwise), then return the delegate's screen text. -/
def get_screen_as_text (env : JavaEnv) (s : LibState) :
    Except PyErr String :=
  match verify_connected env s with
  | some e => .error e
  | none =>
    if env.getScreenRaises then
      .error (.genericError "Failed to get screen content")
    else .ok env.screenText

/-- Model of `set_timeout`: stores the new default for wait operations. -/
def set_timeout (s : LibState) (t : Nat) : LibState :=
  { s with timeout_ms := t }

/-- Model of `set_system_request_handler`: verify connected, then resolve the
given class NAME through `Class.forName(...).newInstance()` (modelled by
the environment's class registry) and install the resulting instance;
an unresolvable name raises. -/
def set_system_request_handler (env : JavaEnv) (s : LibState)
    (nm : String) : Outcome Unit :=
  match verify_connected env s with
  | some e => { state := s, result := .error e }
  | none =>
    match env.classRegistry nm with
    | none =>
      { state := s,
        result := .error (.genericError ("Failed to set RequestHandler: " ++ nm)) }
    | some h => { state := { s with handler := h }, result := .ok () }

/-- An environment in which every delegated Java call succeeds. -/
def envOk : JavaEnv :=
  { isConnected := true, connectRaises := false, disconnectRaises := false,
    unlockRaises := false, cycleRaises := false, getScreenRaises := false,
    screenText := "", classRegistry := fun _ => none }

/-- A library state with both session references present. -/
def connState : LibState :=
  { session := some (), headless := some (), handler := fun _ => none,
    timeout_ms := 30000 }

/-! ### C4 — disconnect -/

/-- Environment in which the underlying `session.disconnect()` raises. -/
def envDiscRaise : JavaEnv :=
  { envOk with disconnectRaises := true }

/-- C4 counterexample: with a session present and the underlying
`disconnect()` raising, the call still completes without raising, but
the session reference is NOT cleared — the clearing assignments sit
after the raising call inside the `try` body — so the claim that the
state is Disconnected (references cleared) after every call is false. -/
theorem disconnect_refs_not_cleared_counterexample :
    (disconnect_from_ibm_i envDiscRaise connState).result = .ok () ∧
    (disconnect_from_ibm_i envDiscRaise connState).state.session = some () :=
  ⟨rfl, rfl⟩

/-- C4 (amended): `disconnect_from_ibm_i` never raises, no matter how
often it is invoked and in which state; with no session reference the
call is a no-op; with a session present and a non-raising underlying
disconnect both references are cleared; if the underlying disconnect
raises, the error is swallowed and the state is left unchanged (the
references are not cleared). -/
theorem disconnect_never_raises (env : JavaEnv) (s : LibState) :
    (disconnect_from_ibm_i env s).result = .ok () ∧
    (s.session = none → (disconnect_from_ibm_i env s).state = s) ∧
    (s.session ≠ none → env.disconnectRaises = false →
      (disconnect_from_ibm_i env s).state.session = none ∧
      (disconnect_from_ibm_i env s).state.headless = none) ∧
    (env.disconnectRaises = true → (disconnect_from_ibm_i env s).state = s) := by
  rcases hs : s.session with _ | u
  · have hd : disconnect_from_ibm_i env s = { state := s, result := .ok () } := by
      simp [disconnect_from_ibm_i, disconnect_body, hs]
    rw [hd]
    exact ⟨rfl, fun _ => rfl, fun hne => absurd rfl hne, fun _ => rfl⟩
  · rcases hr : env.disconnectRaises with _ | _
    · have hd : disconnect_from_ibm_i env s =
          { state := { s with session := none, headless := none },
            result := .ok () } := by
        simp [disconnect_from_ibm_i, disconnect_body, hs, hr]
      rw [hd]
      refine ⟨rfl, ?_, fun _ _ => ⟨rfl, rfl⟩, ?_⟩
      · intro h0
        exact absurd h0 (by simp)
      · intro hf
        exact absurd hf (by simp)
    · have hd : disconnect_from_ibm_i env s = { state := s, result := .ok () } := by
        simp [disconnect_from_ibm_i, disconnect_body, hs, hr]
      rw [hd]
      refine ⟨rfl, ?_, ?_, fun _ => rfl⟩
      · intro h0
        exact absurd h0 (by simp)
      · intro _ hf
        exact absurd hf (by simp)

/-- Witness for the amended C4 at a concrete connected state with a
well-behaved underlying session: the call succeeds and clears the
session reference. -/
theorem disconnect_never_raises_witness :
    (disconnect_from_ibm_i envOk connState).result = .ok () ∧
    (disconnect_from_ibm_i envOk connState).state.session = none := by
  have h := disconnect_never_raises envOk connState
  exact ⟨h.1, (h.2.2.1 (by simp [connState]) rfl).1⟩

/-! ### C6 — connect atomicity on failure -/

/-- Environment in which `session.connect()` raises. -/
def envConnFail : JavaEnv :=
  { envOk with isConnected := false, connectRaises := true }

/-- C6 counterexample: on a transport failure the connect call raises a
connection error, yet the session reference assigned before the failing
call survives — a lingering session object remains after the failed
connect, so the claim that no partially-connected state survives is
false. -/
theorem connect_lingering_refs_counterexample :
    (connect_to_ibm_i envConnFail initState "h1").result =
      .error (.connectionError "Connection failed") ∧
    (connect_to_ibm_i envConnFail initState "h1").state.session = some () :=
  ⟨rfl, rfl⟩

/-- C6 (amended): whenever the transport fails or the post-connect
check reports not connected, `connect_to_ibm_i` fails with a
ConnectionError, but the session references assigned before the failure
remain set: a lingering (non-connected) session object survives a
failed connect. -/
theorem connect_fails_with_lingering_refs (env : JavaEnv) (s : LibState)
    (host : String)
    (h : env.connectRaises = true ∨ env.isConnected = false) :
    (∃ m, (connect_to_ibm_i env s host).result =
      .error (.connectionError m)) ∧
    (connect_to_ibm_i env s host).state.session = some () ∧
    (connect_to_ibm_i env s host).state.headless = some () := by
  rcases hr : env.connectRaises with _ | _
  · have hc : env.isConnected = false := by
      rcases h with h | h
      · rw [hr] at h
        exact absurd h (by simp)
      · exact h
    exact ⟨⟨"Connection failed: Failed to connect to IBM i system: " ++ host,
        by simp [connect_to_ibm_i, hr, hc]⟩,
      by simp [connect_to_ibm_i, hr, hc],
      by simp [connect_to_ibm_i, hr, hc]⟩
  · exact ⟨⟨"Connection failed", by simp [connect_to_ibm_i, hr]⟩,
      by simp [connect_to_ibm_i, hr],
      by simp [connect_to_ibm_i, hr]⟩

/-- Witness for the amended C6 at a concrete failing environment. -/
theorem connect_fails_with_lingering_refs_witness :
    (∃ m, (connect_to_ibm_i envConnFail initState "h1").result =
      .error (.connectionError m)) ∧
    (connect_to_ibm_i envConnFail initState "h1").state.session = some () ∧
    (connect_to_ibm_i envConnFail initState "h1").state.headless = some () :=
  connect_fails_with_lingering_refs envConnFail initState "h1" (Or.inl rfl)

/-! ### C7 — StateError outside Connected -/

lemma verify_connected_not_connected (env : JavaEnv) (s : LibState)
    (h : s.session = none ∨ s.headless = none ∨ env.isConnected = false) :
    ∃ m, verify_connected env s = some (.stateError m) := by
  unfold verify_connected
  by_cases h1 : s.session = none ∨ s.headless = none
  · rw [if_pos h1]
    exact ⟨_, rfl⟩
  · rw [if_neg h1]
    have h2 : env.isConnected = false := by
      rcases h with h | h | h
      · exact absurd (Or.inl h) h1
      · exact absurd (Or.inr h) h1
      · exact h
    rw [if_pos h2]
    exact ⟨_, rfl⟩

/-- C7: whenever the session is not Connected — a reference missing or
the headless session reporting not connected — each of the unlock wait,
the lock-cycle wait and the screen-text query fails with a StateError
instead of returning a value. -/
theorem not_connected_ops_state_error (env : JavaEnv) (s : LibState)
    (arg : Option Nat)
    (h : s.session = none ∨ s.headless = none ∨ env.isConnected = false) :
    (∃ m, wait_for_keyboard_unlock env s arg = .error (.stateError m)) ∧
    (∃ m, wait_for_keyboard_lock_cycle env s arg = .error (.stateError m)) ∧
    (∃ m, get_screen_as_text env s = .error (.stateError m)) := by
  obtain ⟨m, hm⟩ := verify_connected_not_connected env s h
  refine ⟨⟨m, ?_⟩, ⟨m, ?_⟩, ⟨m, ?_⟩⟩
  · simp [wait_for_keyboard_unlock, hm]
  · simp [wait_for_keyboard_lock_cycle, hm]
  · simp [get_screen_as_text, hm]

/-- Witness for C7 at the freshly initialized (never connected) state. -/
theorem not_connected_ops_state_error_witness :
    (∃ m, wait_for_keyboard_unlock envOk initState none =
      .error (.stateError m)) ∧
    (∃ m, wait_for_keyboard_lock_cycle envOk initState none =
      .error (.stateError m)) ∧
    (∃ m, get_screen_as_text envOk initState = .error (.stateError m)) :=
  not_connected_ops_state_error envOk initState none (Or.inl rfl)

/-! ### C8 — request handler installation -/

/-- Environment whose class registry resolves the name `MyHandler` to a
handler that always declines. -/
def envRegDecline : JavaEnv :=
  { envOk with
    classRegistry := fun nm =>
      if nm = "MyHandler" then some (fun _ => none) else none }

/-- Environment whose class registry resolves the same name `MyHandler`
to a handler that always answers with the string 1. -/
def envRegAnswer : JavaEnv :=
  { envOk with
    classRegistry := fun nm =>
      if nm = "MyHandler" then some (fun _ => some "1") else none }

/-- C8 counterexample: `set_system_request_handler` takes a class NAME
and resolves it at call time with `Class.forName(...).newInstance()`.
With the same configured name, two environments whose runtime class
registries differ install observably different handlers, so the
installed capability is resolved by runtime class-name lookup and is
not an injected handler value — the claim as stated is false. -/
theorem setRequestHandler_name_lookup_counterexample :
    (set_system_request_handler envRegDecline connState "MyHandler").state.handler
      "screen" = none ∧
    (set_system_request_handler envRegAnswer connState "MyHandler").state.handler
      "screen" = some "1" :=
  ⟨rfl, rfl⟩

/-- C8 (amended): `set_system_request_handler` resolves the given class
name through the runtime class registry (`Class.forName` plus
`newInstance`) and installs whatever instance the lookup yields,
replacing the previously active handler; a name the registry cannot
resolve makes the call fail and leaves the handler unchanged. -/
theorem setRequestHandler_resolves_by_name (env : JavaEnv) (s : LibState)
    (nm : String) (hver : verify_connected env s = none) :
    (∀ h, env.classRegistry nm = some h →
      (set_system_request_handler env s nm).state.handler = h ∧
      (set_system_request_handler env s nm).result = .ok ()) ∧
    (env.classRegistry nm = none →
      (set_system_request_handler env s nm).state.handler = s.handler ∧
      (set_system_request_handler env s nm).result =
        .error (.genericError ("Failed to set RequestHandler: " ++ nm))) := by
  constructor
  · intro h hreg
    constructor
    · simp [set_system_request_handler, hver, hreg]
    · simp [set_system_request_handler, hver, hreg]
  · intro hreg
    constructor
    · simp [set_system_request_handler, hver, hreg]
    · simp [set_system_request_handler, hver, hreg]

/-- Witness for the amended C8 at a concrete environment and name. -/
theorem setRequestHandler_resolves_by_name_witness :
    (set_system_request_handler envRegAnswer connState "MyHandler").result =
      .ok () ∧
    (set_system_request_handler envRegAnswer connState "Missing").result =
      .error (.genericError ("Failed to set RequestHandler: " ++ "Missing")) := by
  have h1 := (setRequestHandler_resolves_by_name envRegAnswer connState
    "MyHandler" rfl).1 (fun _ => some "1") rfl
  have h2 := (setRequestHandler_resolves_by_name envRegAnswer connState
    "Missing" rfl).2 rfl
  exact ⟨h1.2, h2.2⟩

/-! ### C9 — default timeouts of the two wait operations -/

/-- C9 counterexample: the unlock wait and the cycle wait do have
differing defaults (30000 ms vs 5000 ms), but they are not
independently configurable: `set_timeout` — the only configuration
operation — moves the unlock default, while the cycle default is the
literal 5000 computed from no library state at all, so no configuration
can change it. -/
theorem timeout_defaults_counterexample :
    actual_unlock_timeout (set_timeout initState 60000) none = 60000 ∧
    actual_cycle_timeout none = 5000 ∧
    actual_unlock_timeout initState none = 30000 :=
  ⟨rfl, rfl, rfl⟩

/-- C9 (amended): without a call to `set_timeout` the unlock wait
defaults to 30000 ms and the lock-cycle wait to 5000 ms; `set_timeout`
reconfigures the unlock default to the stored value, while the cycle
default stays the fixed literal 5000 (it is a function of no session
state and cannot be configured, only overridden per call). -/
theorem timeout_defaults (s : LibState) (t : Nat) :
    actual_unlock_timeout initState none = 30000 ∧
    actual_cycle_timeout none = 5000 ∧
    actual_unlock_timeout (set_timeout s t) none = t ∧
    actual_cycle_timeout (some 7500) = 7500 := by
  refine ⟨rfl, rfl, ?_, rfl⟩
  simp [actual_unlock_timeout, set_timeout]

/-- Witness for the amended C9 at a concrete state and value. -/
theorem timeout_defaults_witness :
    actual_unlock_timeout (set_timeout connState 60000) none = 60000 ∧
    actual_cycle_timeout none = 5000 :=
  ⟨(timeout_defaults connState 60000).2.2.1, (timeout_defaults connState 60000).2.1⟩

/-! ## Key-sequence parsing (claim C5)

Modelled from the spec: `sendKeys` parsing is implemented by the Java
headless session, which is not under `src/`; `send_keys` in
`HTI5250J.py` only delegates the raw string to it.  The model follows
spec section 4.4 and the special-keys table in the `send_keys` doc
string: a key sequence mixes literal characters with bracketed
mnemonics drawn from a fixed vocabulary (enter, tab, home, esc, f1–f24,
pf1–pf3, pa4–pa6); an unknown mnemonic fails with a ParseError naming
the offending token, and the sequence is parsed in full before anything
is sent, so a failing call sends nothing. -/

/-- The bracketed mnemonics accepted by `sendKeys`, per the `send_keys`
doc string. -/
def knownMnemonics : List String :=
  ["enter", "tab", "home", "esc",
   "f1", "f2", "f3", "f4", "f5", "f6", "f7", "f8", "f9", "f10", "f11",
   "f12", "f13", "f14", "f15", "f16", "f17", "f18", "f19", "f20", "f21",
   "f22", "f23", "f24",
   "pf1", "pf2", "pf3", "pa4", "pa5", "pa6"]

/-- One parsed element of a key sequence: a literal character or a
bracketed mnemonic. -/
inductive KeyToken where
  | lit : Char → KeyToken
  | key : String → KeyToken
deriving DecidableEq, Repr

/-- Reads the characters of a bracketed mnemonic up to its closing
bracket, returning the mnemonic and the remaining input; fails when the
bracket is never closed. -/
def readMnemonic : List Char → Option (List Char × List Char)
  | [] => none
  | c :: rest =>
    if c = ']' then some ([], rest)
    else
      match readMnemonic rest with
      | none => none
      | some (nm, r) => some (c :: nm, r)

lemma readMnemonic_length {l nm r} (h : readMnemonic l = some (nm, r)) :
    r.length < l.length := by
  induction l generalizing nm r with
  | nil => simp [readMnemonic] at h
  | cons c rest ih =>
    unfold readMnemonic at h
    by_cases hc : c = ']'
    · rw [if_pos hc] at h
      injection h with hp
      injection hp with h1 h2
      subst h2
      simp
    · rw [if_neg hc] at h
      rcases hr : readMnemonic rest with _ | ⟨nm2, r2⟩
      · rw [hr] at h
        simp at h
      · rw [hr] at h
        replace h : some (c :: nm2, r2) = some (nm, r) := h
        injection h with hp
        injection hp with h1 h2
        subst h2
        have hlt := ih hr
        simp
        omega

/-- Modelled from the spec: parse a key sequence into its token stream.
A plain character is a literal; an opening bracket starts a mnemonic;
a mnemonic outside the vocabulary fails with a ParseError naming the
offending token, abandoning the rest of the sequence. -/
def parseKeys : List Char → Except PyErr (List KeyToken)
  | [] => .ok []
  | c :: rest =>
    if hc : c = '[' then
      match hr : readMnemonic rest with
      | none => .error (.parseError "unterminated mnemonic")
      | some (nm, r) =>
        if String.mk nm ∈ knownMnemonics then
          match parseKeys r with
          | .ok ts => .ok (.key (String.mk nm) :: ts)
          | .error e => .error e
        else .error (.parseError (String.mk nm))
    else
      match parseKeys rest with
      | .ok ts => .ok (.lit c :: ts)
      | .error e => .error e
termination_by l => l.length
decreasing_by
  · have := readMnemonic_length hr
    simp
    omega
  · simp

/-- Modelled from the spec: the tokens actually sent by one `sendKeys`
call — the whole sequence is parsed before sending, so a parse failure
sends nothing. -/
def sentTokens (s : String) : List KeyToken :=
  match parseKeys s.data with
  | .ok ts => ts
  | .error _ => []

lemma readMnemonic_append (tok post : List Char)
    (htok : ∀ c ∈ tok, c ≠ ']') :
    readMnemonic (tok ++ ']' :: post) = some (tok, post) := by
  induction tok with
  | nil => simp [readMnemonic]
  | cons c rest ih =>
    have hc : c ≠ ']' := htok c (by simp)
    have ih2 := ih (fun d hd => htok d (List.mem_cons_of_mem c hd))
    simp only [List.cons_append]
    unfold readMnemonic
    rw [if_neg hc, ih2]

/-- The raw characters a token was written as in the key sequence: a
literal is itself, a mnemonic is bracketed. -/
def renderToken : KeyToken → List Char
  | .lit c => [c]
  | .key nm => '[' :: (nm.data ++ [']'])

/-- A token that parses cleanly as part of a prefix: a literal that
does not open a bracket, or a mnemonic from the vocabulary. -/
def goodToken : KeyToken → Prop
  | .lit c => c ≠ '['
  | .key nm => nm ∈ knownMnemonics

instance decGoodToken : (t : KeyToken) → Decidable (goodToken t)
  | .lit c => inferInstanceAs (Decidable (c ≠ '['))
  | .key nm => inferInstanceAs (Decidable (nm ∈ knownMnemonics))

lemma knownMnemonics_no_close :
    ∀ nm ∈ knownMnemonics, ∀ c ∈ nm.data, c ≠ ']' := by decide

lemma parseKeys_unknown_mnemonic_aux (pre : List KeyToken)
    (tok post : List Char)
    (hpre : ∀ t ∈ pre, goodToken t)
    (htok : ∀ c ∈ tok, c ≠ ']')
    (hunk : String.mk tok ∉ knownMnemonics) :
    parseKeys (pre.flatMap renderToken ++ '[' :: (tok ++ ']' :: post)) =
      .error (.parseError (String.mk tok)) := by
  induction pre with
  | nil =>
    simp only [List.flatMap_nil, List.nil_append]
    unfold parseKeys
    rw [dif_pos rfl, readMnemonic_append tok post htok]
    split
    · rename_i heq
      exact absurd heq (by simp)
    · rename_i nm r heq
      cases heq
      rw [if_neg hunk]
  | cons t pre2 ih =>
    have ht := hpre t (by simp)
    have ih2 := ih (fun u hu => hpre u (List.mem_cons_of_mem t hu))
    cases t with
    | lit c =>
      have hc : c ≠ '[' := ht
      simp only [List.flatMap_cons, renderToken, List.cons_append,
        List.nil_append, List.append_assoc]
      unfold parseKeys
      rw [dif_neg hc, ih2]
    | key nm =>
      have hmem : nm ∈ knownMnemonics := ht
      have hnm : ∀ c ∈ nm.data, c ≠ ']' := knownMnemonics_no_close nm hmem
      simp only [List.flatMap_cons, renderToken, List.cons_append,
        List.append_assoc, List.singleton_append]
      unfold parseKeys
      rw [dif_pos rfl, readMnemonic_append nm.data _ hnm]
      split
      · rename_i heq
        exact absurd heq (by simp)
      · rename_i nm2 r heq
        cases heq
        rw [if_pos (show String.mk nm.data ∈ knownMnemonics from hmem)]
        simp only [List.nil_append]
        rw [ih2]

/-- C5: any key sequence whose prefix is a well-formed mix of literal
characters and known bracketed mnemonics, followed by an unknown
bracketed mnemonic (and then anything at all), fails with a ParseError
that names the offending token — the first unknown mnemonic — and the
failing call sends nothing: no tokens before or after the failure point
are sent. -/
theorem sendKeys_unknown_mnemonic (pre : List KeyToken)
    (tok post : List Char)
    (hpre : ∀ t ∈ pre, goodToken t)
    (htok : ∀ c ∈ tok, c ≠ ']')
    (hunk : String.mk tok ∉ knownMnemonics) :
    parseKeys (pre.flatMap renderToken ++ '[' :: (tok ++ ']' :: post)) =
      .error (.parseError (String.mk tok)) ∧
    sentTokens
      (String.mk (pre.flatMap renderToken ++ '[' :: (tok ++ ']' :: post))) =
      [] := by
  have hp := parseKeys_unknown_mnemonic_aux pre tok post hpre htok hunk
  refine ⟨hp, ?_⟩
  unfold sentTokens
  rw [show
    (String.mk (pre.flatMap renderToken ++ '[' :: (tok ++ ']' :: post))).data =
    pre.flatMap renderToken ++ '[' :: (tok ++ ']' :: post) from rfl, hp]

/-- The token prefix MYUSER[tab]MYPASS used by the C5 witness. -/
def bogusPre : List KeyToken :=
  [.lit 'M', .lit 'Y', .lit 'U', .lit 'S', .lit 'E', .lit 'R', .key "tab",
   .lit 'M', .lit 'Y', .lit 'P', .lit 'A', .lit 'S', .lit 'S']

/-- Witness for C5 on the concrete sequence MYUSER[tab]MYPASS[bogus],
whose unknown mnemonic sits after literals and a known mnemonic: the
parse fails naming bogus and nothing is sent. -/
theorem sendKeys_unknown_mnemonic_witness :
    parseKeys "MYUSER[tab]MYPASS[bogus]".data =
      .error (.parseError "bogus") ∧
    sentTokens "MYUSER[tab]MYPASS[bogus]" = [] :=
  sendKeys_unknown_mnemonic bogusPre "bogus".data []
    (by decide) (by decide) (by decide)

/-! ## CCSID migration generator (`src/generate_ccsid_migrations.py`)

`generate_migrations` iterates over `sorted(CCSID_CONFIGS.items())`,
skips the keys 37 and 930, writes one test file and one implementation
file per remaining key, counts the generated pairs and returns the
count. -/

/-- The `CCSID_CONFIGS` dictionary: key and description, in source
order. -/
def CCSID_CONFIGS : List (String × String) :=
  [("273", "CECP: Germany, Austria"),
   ("277", "CECP: Denmark, Norway"),
   ("278", "CECP: Sweden, Finland"),
   ("280", "CECP: Italy"),
   ("284", "CECP: Spain, Latin America"),
   ("285", "CECP: UK, Ireland"),
   ("297", "CECP: France"),
   ("424", "CECP: Hebrew"),
   ("500", "CECP: International"),
   ("870", "CECP: Latin-2"),
   ("871", "CECP: Iceland"),
   ("875", "CECP: Greek"),
   ("930", "DBCS: Japan"),
   ("1025", "CECP: Cyrillic"),
   ("1026", "CECP: Turkish"),
   ("1112", "CECP: Baltic"),
   ("1122", "CECP: Estonia"),
   ("1140", "CECP: US (Euro)"),
   ("1141", "CECP: Germany (Euro)"),
   ("1147", "CECP: France (Euro)"),
   ("1148", "CECP: UK (Euro)")]

/-- Lexicographic code-point comparison of two key strings, the order
Python uses when sorting the configuration keys. -/
def keyLe (a b : List Char) : Bool :=
  match a, b with
  | [], _ => true
  | _ :: _, [] => false
  | c :: cs, d :: ds =>
    if c.toNat < d.toNat then true
    else if d.toNat < c.toNat then false
    else keyLe cs ds

/-- Insertion of one entry into a key-sorted association list. -/
def insertByKey (x : String × String) :
    List (String × String) → List (String × String)
  | [] => [x]
  | y :: rest =>
    if keyLe x.1.data y.1.data then x :: y :: rest else y :: insertByKey x rest

/-- Model of `sorted(CCSID_CONFIGS.items())`: the configuration entries in
lexicographic key order. -/
def sortedConfigs : List (String × String) :=
  CCSID_CONFIGS.foldr insertByKey []

/-- One loop iteration of `generate_migrations`: skip the keys 37 and
930, otherwise write the test file and the implementation file for the
key and bump the pair count. -/
def generateStep (acc : List String × Nat) (cfg : String × String) :
    List String × Nat :=
  if cfg.1 = "37" ∨ cfg.1 = "930" then acc
  else
    (acc.1 ++ ["CCSID" ++ cfg.1 ++ "MigrationTest.java",
               "CCSID" ++ cfg.1 ++ ".java"],
     acc.2 + 1)

/-- Model of `generate_migrations`: the file names written, in order, and the
returned pair count. -/
def generate_migrations : List String × Nat :=
  sortedConfigs.foldl generateStep ([], 0)

/-- The same loop body with the never-firing skip test for key 37
removed. -/
def generateStepNo37 (acc : List String × Nat) (cfg : String × String) :
    List String × Nat :=
  if cfg.1 = "930" then acc
  else
    (acc.1 ++ ["CCSID" ++ cfg.1 ++ "MigrationTest.java",
               "CCSID" ++ cfg.1 ++ ".java"],
     acc.2 + 1)

/-- C10: the generator writes exactly one test file and one
implementation file for each key of `CCSID_CONFIGS` except 930, returns
exactly 20 generated pairs, and its skip test for the key 37 never
fires — 37 is not a key of `CCSID_CONFIGS`, so deleting that test
leaves the result unchanged. -/
theorem generate_migrations_exact :
    generate_migrations.2 = 20 ∧
    generate_migrations.1 =
      ((sortedConfigs.map Prod.fst).filter (fun k => k ≠ "930")).flatMap
        (fun k => ["CCSID" ++ k ++ "MigrationTest.java",
                   "CCSID" ++ k ++ ".java"]) ∧
    "37" ∉ CCSID_CONFIGS.map Prod.fst ∧
    generate_migrations = sortedConfigs.foldl generateStepNo37 ([], 0) := by
  refine ⟨rfl, rfl, by decide, rfl⟩

end HTI5250J
